import Mathlib

/-!
Verification development for the omni-chat repository.

The embedding models, at the character level, the pieces of the code the
claims are about:
* `src/lib/ai.ts` — provider dispatch, single-shot generation and streaming
  (including the Deepseek server-sent-event frame parsing loop);
* `src/lib/auth.ts` — sign-in/sign-up coalescing through the module-level
  `authRequest` promise;
* the zustand store (`useChatStore`) — state transitions `setUser`,
  `addMessage`, `setMessages`, `setConversations`, `setCurrentConversation`,
  `setIsAuthenticated`, and the `SIGNED_OUT` handler of `App` which composes
  five of them;
* `src/lib/api.ts` — `createConversation` and `sendMessage` against the
  managed store, whose row-level-security and NOT NULL behaviour is modelled
  from the SQL migration shipped in the repository.

JS strings are modelled as Lean `String`s, and the string primitives used by
the code (`split('\n')`, `trim`, `startsWith('data: ')`, `slice(6)`) are
re-implemented structurally over the character list so that every definition
is executable by the kernel.  Network effects are modelled by passing the
upstream's observable behaviour (HTTP status, delivered chunks, injected
faults) as explicit data; the prompt and conversation history only shape the
outgoing request payload, which that upstream data abstracts, so they do not
appear as parameters.
-/

namespace OmniChat

/-- Character-level worker for `splitNl`: first argument is the remaining
input, second the (reversed) characters of the line being built. -/
def splitNlAux : List Char → List Char → List String
  | [], cur => [String.mk cur.reverse]
  | c :: rest, cur =>
    if c = '\n' then String.mk cur.reverse :: splitNlAux rest []
    else splitNlAux rest (c :: cur)

/-- Model of JS `chunk.split('\n')`: splits at every newline, keeping empty
pieces (JS semantics). -/
def splitNl (s : String) : List String := splitNlAux s.toList []

/-- Model of JS `line.trim() === ''`: the line has only whitespace. -/
def isBlankLine (s : String) : Bool := s.toList.all Char.isWhitespace

/-- `charsHavePre pat cs` holds when `pat` is an initial run of `cs`. -/
def charsHavePre : List Char → List Char → Bool
  | [], _ => true
  | _ :: _, [] => false
  | p :: ps, c :: cs => p == c && charsHavePre ps cs

/-- Model of JS `line.startsWith('data: ')`. -/
def lineIsData (l : String) : Bool := charsHavePre "data: ".toList l.toList

/-- Model of JS `line.slice(n)` (drop the first `n` characters). -/
def sliceFrom (s : String) (n : Nat) : String := String.mk (s.toList.drop n)

/-- Concatenation of a list of strings, in order. -/
def concatAll : List String → String
  | [] => ""
  | s :: rest => s ++ concatAll rest

/-! ## Data model (`src/types/index.ts`) -/

/-- `role: 'user' | 'assistant'` — the closed role set. -/
inductive Role
  | user
  | assistant
deriving DecidableEq

/-- The `User` row type. -/
structure User where
  id : String
  email : String
  created_at : Nat
deriving DecidableEq

/-- The `Message` row type. -/
structure Message where
  id : String
  conversation_id : String
  content : String
  role : Role
  created_at : Nat
  file_url : Option String
deriving DecidableEq

/-- The `Conversation` row type. -/
structure Conversation where
  id : String
  title : String
  user_id : String
  model : String
  created_at : Nat
  last_message : Option String
deriving DecidableEq

/-! ## Client state store (`useChatStore`, src/store) -/

/-- The zustand store state. -/
structure ChatState where
  user : Option User
  conversations : List Conversation
  currentConversation : Option Conversation
  messages : List Message
  selectedModel : String
  isDarkMode : Bool
  isAuthenticated : Bool
deriving DecidableEq

/-- `setUser: (user) => set({ user, isAuthenticated: !!user })`. -/
def setUser (u : Option User) (s : ChatState) : ChatState :=
  { s with user := u, isAuthenticated := u.isSome }

/-- `setConversations: (conversations) => set({ conversations })`. -/
def setConversations (cs : List Conversation) (s : ChatState) : ChatState :=
  { s with conversations := cs }

/-- `setCurrentConversation: (conversation) => set({ currentConversation: conversation })`. -/
def setCurrentConversation (c : Option Conversation) (s : ChatState) : ChatState :=
  { s with currentConversation := c }

/-- `setMessages: (messages) => set({ messages })`. -/
def setMessages (ms : List Message) (s : ChatState) : ChatState :=
  { s with messages := ms }

/-- `addMessage`: appends the message and rewrites the matching
conversation's `last_message` in the same `set` call. -/
def addMessage (m : Message) (s : ChatState) : ChatState :=
  { s with
    messages := s.messages ++ [m]
    conversations := s.conversations.map (fun conv =>
      if conv.id = m.conversation_id then { conv with last_message := some m.content }
      else conv) }

/-- `setSelectedModel: (model) => set({ selectedModel: model })`. -/
def setSelectedModel (m : String) (s : ChatState) : ChatState :=
  { s with selectedModel := m }

/-- `toggleDarkMode`. -/
def toggleDarkMode (s : ChatState) : ChatState :=
  { s with isDarkMode := !s.isDarkMode }

/-- `setIsAuthenticated: (value) => set({ isAuthenticated: value })`. -/
def setIsAuthenticated (v : Bool) (s : ChatState) : ChatState :=
  { s with isAuthenticated := v }

/-- The `SIGNED_OUT` branch of the auth-state listener in `App`: five
successive store transitions, applied in source order. -/
def signedOutHandler (s : ChatState) : ChatState :=
  setConversations [] (setMessages [] (setCurrentConversation none
    (setIsAuthenticated false (setUser none s))))

/-- Written from the spec's words for comparison: the fully cleared state a
"single logical logout transition" would produce — user, authentication
flag, current conversation, message list and conversation list all cleared
at once, everything else untouched. -/
def specLogoutCleared (s : ChatState) : ChatState :=
  { s with
    user := none, isAuthenticated := false, currentConversation := none,
    messages := [], conversations := [] }

/-! ## AI response types (`src/lib/ai.ts`) -/

/-- `AIResponse = { content, error? }`. -/
structure AIResponse where
  content : String
  error : Option String
deriving DecidableEq

/-- `AIStreamResponse = { content, done, error? }`. -/
structure AIStreamResponse where
  content : String
  done : Bool
  error : Option String
deriving DecidableEq

/-- The fallback content returned on any provider failure. -/
def fallbackContent : String :=
  "I apologize, but I encountered an error processing your request."

/-! ## Single-shot generation (`generateAIResponse` and the per-provider
functions).  Each provider's upstream behaviour is an explicit outcome
value; the `try`/`catch` of the source becomes a match on that outcome. -/

/-- Upstream outcome of `openai.chat.completions.create` in
`generateOpenAIResponse`: the call either rejects, or resolves with
`completion.choices[0].message.content` (possibly `null`, modelled as
`none`; the source applies `|| ''`). -/
inductive OpenAIOutcome
  | success (content : Option String)
  | failure (msg : String)
deriving DecidableEq

/-- `generateOpenAIResponse`. -/
def generateOpenAIResponse : OpenAIOutcome → AIResponse
  | .success c => { content := c.getD "", error := none }
  | .failure msg => { content := fallbackContent, error := some msg }

/-- Upstream outcome of the Gemini chat call in `generateGeminiResponse`:
either `response.text()` or a thrown error. -/
inductive GeminiOutcome
  | success (text : String)
  | failure (msg : String)
deriving DecidableEq

/-- `generateGeminiResponse`. -/
def generateGeminiResponse : GeminiOutcome → AIResponse
  | .success t => { content := t, error := none }
  | .failure msg => { content := fallbackContent, error := some msg }

/-- Upstream outcome of the Deepseek fetch in `generateDeepseekResponse`:
the fetch/json call may reject, the response may be non-ok (the source then
throws `Deepseek API error: <statusText>`), the payload may not have the
expected shape (the field access throws), or it yields the content. -/
inductive DeepseekOutcome
  | fetchFailure (msg : String)
  | httpFailure (statusText : String)
  | badPayload (msg : String)
  | success (content : String)
deriving DecidableEq

/-- `generateDeepseekResponse`. -/
def generateDeepseekResponse : DeepseekOutcome → AIResponse
  | .fetchFailure msg => { content := fallbackContent, error := some msg }
  | .httpFailure st => { content := fallbackContent, error := some ("Deepseek API error: " ++ st) }
  | .badPayload msg => { content := fallbackContent, error := some msg }
  | .success c => { content := c, error := none }

/-- The three upstream outcomes a single `generateAIResponse` call could
observe, one per provider (only the dispatched one is consulted). -/
structure GenerateEnv where
  openai : OpenAIOutcome
  gemini : GeminiOutcome
  deepseek : DeepseekOutcome

/-- `generateAIResponse`: the `switch (model)` with `default` falling back
to the OpenAI (gpt-3.5-turbo) path. -/
def generateAIResponse (model : String) (env : GenerateEnv) : AIResponse :=
  if model = "gemini" then generateGeminiResponse env.gemini
  else if model = "deepseek-chat" then generateDeepseekResponse env.deepseek
  else generateOpenAIResponse env.openai

/-- Whether the dispatched provider's upstream failed. -/
def generateFails (model : String) (env : GenerateEnv) : Bool :=
  if model = "gemini" then
    match env.gemini with
    | .failure _ => true
    | .success _ => false
  else if model = "deepseek-chat" then
    match env.deepseek with
    | .success _ => false
    | _ => true
  else
    match env.openai with
    | .failure _ => true
    | .success _ => false

/-- The completion content the dispatched provider produced on success
(irrelevant value on failure). -/
def generateSuccessContent (model : String) (env : GenerateEnv) : String :=
  if model = "gemini" then
    match env.gemini with
    | .success t => t
    | .failure _ => ""
  else if model = "deepseek-chat" then
    match env.deepseek with
    | .success c => c
    | _ => ""
  else
    match env.openai with
    | .success c => c.getD ""
    | .failure _ => ""

/-! ## Streaming (`streamAIResponse`, `streamDeepseekResponse`).

A streaming call's observable output is the finite list of snapshots it
yields, in order.  `extract` models `JSON.parse(line.slice(6))` followed by
`data.choices[0].delta.content || ''`: `.error msg` when the parse or field
access throws, `.ok delta` otherwise. -/

/-- The single snapshot yielded by the `catch` arm of either streaming
generator. -/
def errorSnapshot (msg : String) : AIStreamResponse :=
  { content := fallbackContent, done := true, error := some msg }

/-- `chunk.split('\n').filter(line => line.trim() !== '')`. -/
def chunkLines (chunk : String) : List String :=
  (splitNl chunk).filter (fun l => !(isBlankLine l))

/-- The inner `for (const line of lines)` loop of `streamDeepseekResponse`,
threading the accumulator: returns the final accumulator, the snapshots
yielded, and the thrown message if `extract` threw (processing then stops).
-/
def processLines (extract : String → Except String String) :
    String → List String → String × List AIStreamResponse × Option String
  | acc, [] => (acc, [], none)
  | acc, line :: rest =>
    if lineIsData line then
      match extract (sliceFrom line 6) with
      | .error msg => (acc, [], some msg)
      | .ok delta =>
        match processLines extract (acc ++ delta) rest with
        | (accFin, ys, err) =>
          (accFin, { content := acc ++ delta, done := false, error := none } :: ys, err)
    else
      processLines extract acc rest

/-- The outer `while (true)` read loop over the delivered chunks. -/
def processChunks (extract : String → Except String String) :
    String → List String → String × List AIStreamResponse × Option String
  | acc, [] => (acc, [], none)
  | acc, chunk :: rest =>
    match processLines extract acc (chunkLines chunk) with
    | (acc2, ys, some msg) => (acc2, ys, some msg)
    | (acc2, ys, none) =>
      match processChunks extract acc2 rest with
      | (acc3, ys2, err) => (acc3, ys ++ ys2, err)

/-- Observable behaviour of the Deepseek streaming upstream: whether the
fetch rejected, the HTTP status, whether `response.body` was readable, the
decoded text chunks delivered by `reader.read()`, and whether a further
`read()` rejected (network drop) after those chunks instead of signalling
`done`. -/
structure DeepseekStream where
  fetchFail : Option String
  ok : Bool
  statusText : String
  readable : Bool
  chunks : List String
  readError : Option String

/-- `streamDeepseekResponse`: the list of snapshots the generator yields. -/
def streamDeepseekResponse (extract : String → Except String String)
    (u : DeepseekStream) : List AIStreamResponse :=
  match u.fetchFail with
  | some msg => [errorSnapshot msg]
  | none =>
    if u.ok = false then [errorSnapshot ("Deepseek API error: " ++ u.statusText)]
    else if u.readable = false then [errorSnapshot "Response body is not readable"]
    else
      match processChunks extract "" u.chunks with
      | (_, ys, some msg) => ys ++ [errorSnapshot msg]
      | (acc, ys, none) =>
        match u.readError with
        | some msg => ys ++ [errorSnapshot msg]
        | none => ys ++ [{ content := acc, done := true, error := none }]

/-- Observable behaviour of the OpenAI streaming upstream: whether
`create` rejected; otherwise each delivered chunk's
`chunk.choices[0]?.delta?.content` (optional chaining never throws, `none`
models a missing delta, the source applies `|| ''`), and whether the
iteration then threw instead of finishing. -/
structure OpenAIStream where
  createFail : Option String
  chunks : List (Option String)
  iterError : Option String

/-- The `for await (const chunk of stream)` loop of the OpenAI branch:
final accumulator and yielded snapshots. -/
def openaiYields : String → List (Option String) → String × List AIStreamResponse
  | acc, [] => (acc, [])
  | acc, c :: cs =>
    match openaiYields (acc ++ c.getD "") cs with
    | (accFin, ys) =>
      (accFin, { content := acc ++ c.getD "", done := false, error := none } :: ys)

/-- The `default` (OpenAI) branch of `streamAIResponse`. -/
def streamOpenAIResponse (u : OpenAIStream) : List AIStreamResponse :=
  match u.createFail with
  | some msg => [errorSnapshot msg]
  | none =>
    match openaiYields "" u.chunks with
    | (acc, ys) =>
      match u.iterError with
      | some msg => ys ++ [errorSnapshot msg]
      | none => ys ++ [{ content := acc, done := true, error := none }]

/-- The `gemini` branch of `streamAIResponse`: one whole-response snapshot. -/
def streamGeminiResponse (g : GeminiOutcome) : List AIStreamResponse :=
  [{ content := (generateGeminiResponse g).content, done := true,
     error := (generateGeminiResponse g).error }]

/-- The upstream behaviours a single `streamAIResponse` call could observe
(only the dispatched one is consulted). -/
structure StreamEnv where
  gemini : GeminiOutcome
  deepseekExtract : String → Except String String
  deepseek : DeepseekStream
  openai : OpenAIStream

/-- `streamAIResponse`: the `switch (model)` with `default` falling back to
the OpenAI (gpt-3.5-turbo) streaming path. -/
def streamAIResponse (model : String) (env : StreamEnv) : List AIStreamResponse :=
  if model = "gemini" then streamGeminiResponse env.gemini
  else if model = "deepseek-chat" then
    streamDeepseekResponse env.deepseekExtract env.deepseek
  else streamOpenAIResponse env.openai

/-- Whether a failure occurred anywhere during the dispatched streaming
call (rejected fetch or create, non-success status, unreadable body, frame
parse error, mid-stream network drop, Gemini whole-response failure). -/
def streamOutcomeFails (model : String) (env : StreamEnv) : Bool :=
  if model = "gemini" then
    match env.gemini with
    | .failure _ => true
    | .success _ => false
  else if model = "deepseek-chat" then
    env.deepseek.fetchFail.isSome || !env.deepseek.ok || !env.deepseek.readable ||
      (processChunks env.deepseekExtract "" env.deepseek.chunks).2.2.isSome ||
      env.deepseek.readError.isSome
  else
    env.openai.createFail.isSome || env.openai.iterError.isSome

/-- The payloads (`line.slice(6)`) of the `data: `-prefixed lines, in
order. -/
def payloadsOfLines : List String → List String
  | [] => []
  | line :: rest =>
    if lineIsData line then sliceFrom line 6 :: payloadsOfLines rest
    else payloadsOfLines rest

/-- All frame payloads of a chunk sequence, in order. -/
def payloadsOfChunks (chunks : List String) : List String :=
  (chunks.map (fun c => payloadsOfLines (chunkLines c))).flatten

/-- The deltas successfully extracted from a payload list. -/
def deltasOf (extract : String → Except String String) (ps : List String) : List String :=
  ps.filterMap (fun p => (extract p).toOption)

/-- The snapshots a well-formed frame sequence produces: one per delta,
carrying the accumulator extended by that delta. -/
def accumSnapshots : String → List String → List AIStreamResponse
  | _, [] => []
  | acc, d :: rest =>
    { content := acc ++ d, done := false, error := none } :: accumSnapshots (acc ++ d) rest

/-! ## Managed store (`src/lib/api.ts` over the SQL migration) -/

/-- Store-surfaced failures.  `authRequired` is the row-level-security
rejection of an unauthenticated insert (the policies grant access `TO
authenticated` only); `notNullViolation` the NOT NULL constraint;
`rlsDenied` the `WITH CHECK auth.uid() = user_id` rejection; `other`
covers injected backend faults. -/
inductive StoreError
  | authRequired
  | notNullViolation (column : String)
  | rlsDenied
  | other (msg : String)
deriving DecidableEq

/-- The managed store as seen by one client: the two tables the claims
touch, the authenticated session (if any), and server-assigned id and
clock. -/
structure Server where
  conversations : List Conversation
  messages : List Message
  sessionUser : Option String
  nextId : Nat
  now : Nat
deriving DecidableEq

/-- The conversation row the server stores for a successful insert, with
server-assigned identifier and timestamp. -/
def freshConversation (srv : Server) (title model owner : String) : Conversation :=
  { id := toString srv.nextId, title := title, user_id := owner, model := model,
    created_at := srv.now, last_message := none }

/-- The store's insert into `conversations`, modelled from the SQL
migration: the policy `FOR ALL TO authenticated USING/WITH CHECK
(auth.uid() = user_id)` and `user_id NOT NULL`. -/
def insertConversationRow (srv : Server) (title model : String)
    (user_id : Option String) : Except StoreError Conversation × Server :=
  match srv.sessionUser with
  | none => (.error .authRequired, srv)
  | some uid =>
    match user_id with
    | none => (.error (.notNullViolation "user_id"), srv)
    | some owner =>
      if owner = uid then
        let row := freshConversation srv title model owner
        (.ok row,
         { srv with conversations := srv.conversations ++ [row], nextId := srv.nextId + 1 })
      else (.error .rlsDenied, srv)

/-- `createConversation(title, model)`: inserts with
`user_id: (await supabase.auth.getUser()).data.user?.id` — the session's
user id, or null when there is no session — and throws the store's error if
the insert is rejected. -/
def createConversation (srv : Server) (title model : String) :
    Except StoreError Conversation × Server :=
  insertConversationRow srv title model srv.sessionUser

/-- The message row the server stores for a successful insert. -/
def freshMessage (srv : Server) (conversationId content : String) (role : Role)
    (fileUrl : Option String) : Message :=
  { id := toString srv.nextId, conversation_id := conversationId, content := content,
    role := role, created_at := srv.now, file_url := fileUrl }

/-- Injected store faults for the two operations `sendMessage` issues:
`none` means the operation succeeds. -/
structure SendFaults where
  insertFail : Option StoreError
  updateFail : Option StoreError
deriving DecidableEq

/-- `sendMessage(conversationId, content, role, fileUrl?)`: issues the
message insert and the conversation `last_message` update together
(`Promise.all`), applies each operation's effect independently of the
other's outcome (no rollback), then surfaces `messageResult.error` first,
`updateResult.error` second, and otherwise returns the inserted row. -/
def sendMessage (srv : Server) (conversationId content : String) (role : Role)
    (fileUrl : Option String) (faults : SendFaults) :
    Except StoreError Message × Server :=
  let row := freshMessage srv conversationId content role fileUrl
  let insertResult : Except StoreError Message :=
    match faults.insertFail with
    | some e => .error e
    | none => .ok row
  let updateResult : Except StoreError Unit :=
    match faults.updateFail with
    | some e => .error e
    | none => .ok ()
  let srv2 : Server :=
    { srv with
      messages :=
        match insertResult with
        | .ok m => srv.messages ++ [m]
        | .error _ => srv.messages
      conversations :=
        match updateResult with
        | .ok _ => srv.conversations.map (fun c =>
            if c.id = conversationId then { c with last_message := some content } else c)
        | .error _ => srv.conversations
      nextId := srv.nextId + 1 }
  match insertResult with
  | .error e => (.error e, srv2)
  | .ok m =>
    match updateResult with
    | .error e => (.error e, srv2)
    | .ok _ => (.ok m, srv2)

/-! ## Authentication coalescing (`src/lib/auth.ts`).

The JS runtime is single-threaded, so "concurrent" sign-in/sign-up calls
are a sequence of synchronous call prologues interleaved before the
outstanding promise settles.  The state is the module-level `authRequest`
slot; upstream requests are numbered; `issued` records every upstream
authentication request ever started. -/

/-- The module state of `auth.ts` plus instrumentation. -/
structure AuthSysState where
  authRequest : Option Nat
  issued : List Nat
  nextId : Nat
deriving DecidableEq

/-- A client call to `signIn` or `signUp`. -/
inductive AuthCall
  | signInCall (email password : String)
  | signUpCall (email password : String)
deriving DecidableEq

/-- What a caller observes synchronously: a thrown validation error, or the
promise (identified by its upstream request number) it will await. -/
inductive CallResult
  | threw (msg : String)
  | promise (id : Nat)
deriving DecidableEq

/-- `throw new Error('Email and password are required')`. -/
def requiredMsg : String := "Email and password are required"

/-- `throw new Error('Password must be at least 6 characters long')`. -/
def shortPasswordMsg : String := "Password must be at least 6 characters long"

/-- The validation prologue of each call, in source order (`!email ||
!password` first; for `signUp` also `password.length < 6`); returns the
thrown message, if any. -/
def callValidation : AuthCall → Option String
  | .signInCall e p =>
    if e = "" || p = "" then some requiredMsg else none
  | .signUpCall e p =>
    if e = "" || p = "" then some requiredMsg
    else if p.length < 6 then some shortPasswordMsg
    else none

/-- One synchronous call prologue: validate, then either return the
outstanding `authRequest` promise or start a new upstream request and store
it in the slot. -/
def doAuthCall (s : AuthSysState) (c : AuthCall) : AuthSysState × CallResult :=
  match callValidation c with
  | some msg => (s, .threw msg)
  | none =>
    match s.authRequest with
    | some r => (s, .promise r)
    | none =>
      ({ authRequest := some s.nextId, issued := s.issued ++ [s.nextId],
         nextId := s.nextId + 1 },
       .promise s.nextId)

/-- A burst of call prologues executed with no settlement in between —
exactly what "calls made while one request is in flight" means on the
single-threaded runtime. -/
def runCalls : AuthSysState → List AuthCall → AuthSysState × List CallResult
  | s, [] => (s, [])
  | s, c :: cs =>
    match doAuthCall s c with
    | (s2, r) =>
      match runCalls s2 cs with
      | (s3, rs) => (s3, r :: rs)

/-- The `.finally(() => { authRequest = null })` handler running when the
outstanding request settles. -/
def resolveAuth (s : AuthSysState) : AuthSysState := { s with authRequest := none }

/-! ## Concrete inputs used by the closed instantiations -/

/-- A sample user row. -/
def sampleUser : User := { id := "u1", email := "a@b.c", created_at := 0 }

/-- A sample conversation row. -/
def sampleConv : Conversation :=
  { id := "c1", title := "New Chat", user_id := "u1", model := "gpt-3.5-turbo",
    created_at := 0, last_message := none }

/-- A sample message row. -/
def sampleMsg : Message :=
  { id := "m1", conversation_id := "c1", content := "Hello", role := Role.user,
    created_at := 1, file_url := none }

/-- A sample signed-in client state with one conversation and one message. -/
def sampleState : ChatState :=
  { user := some sampleUser, conversations := [sampleConv],
    currentConversation := some sampleConv, messages := [sampleMsg],
    selectedModel := "gpt-3.5-turbo", isDarkMode := false, isAuthenticated := true }

/-- A frame extractor whose payloads are the deltas themselves. -/
def idExtract : String → Except String String := fun p => Except.ok p

/-- A successful Deepseek stream delivering the deltas "Hi" and " there". -/
def sampleDeepseekStream : DeepseekStream :=
  { fetchFail := none, ok := true, statusText := "OK", readable := true,
    chunks := ["data: Hi\n", "data:  there\n"], readError := none }

/-- A streaming environment whose Deepseek fetch rejects outright. -/
def failingStreamEnv : StreamEnv :=
  { gemini := GeminiOutcome.success "",
    deepseekExtract := idExtract,
    deepseek := { fetchFail := some "network down", ok := true, statusText := "",
                  readable := true, chunks := [], readError := none },
    openai := { createFail := none, chunks := [], iterError := none } }

/-- A generation environment whose OpenAI call rejects. -/
def failingGenerateEnv : GenerateEnv :=
  { openai := OpenAIOutcome.failure "rate limited",
    gemini := GeminiOutcome.success "",
    deepseek := DeepseekOutcome.success "" }

/-- A sample store with one conversation and an authenticated session. -/
def sampleServer : Server :=
  { conversations := [sampleConv], messages := [], sessionUser := some "u1",
    nextId := 7, now := 42 }

/-- A store with no authenticated session. -/
def noSessionServer : Server :=
  { conversations := [], messages := [], sessionUser := none, nextId := 0, now := 0 }

/-- Faults where the insert succeeds and the last-message update fails. -/
def sampleFaults : SendFaults :=
  { insertFail := none, updateFail := some (StoreError.other "timeout") }

/-- An auth module state with request 0 outstanding. -/
def sampleAuthState : AuthSysState :=
  { authRequest := some 0, issued := [0], nextId := 1 }

/-- Two valid calls and one invalid call arriving during request 0. -/
def sampleCalls : List AuthCall :=
  [AuthCall.signInCall "a@b.c" "hunter2", AuthCall.signUpCall "a@b.c" "hunter22",
   AuthCall.signInCall "" "x"]

/-! ## Theorems: client state store claims -/

/-- Claim C10: `setUser` changes only the `user` and `isAuthenticated`
fields, setting `isAuthenticated` to whether the new user value is
non-null; the conversation list, current conversation, message list,
selected model and dark-mode flag are unchanged. -/
theorem C10_setUser_frame (s : ChatState) (u : Option User) :
    (setUser u s).user = u ∧
    (setUser u s).isAuthenticated = u.isSome ∧
    (setUser u s).conversations = s.conversations ∧
    (setUser u s).currentConversation = s.currentConversation ∧
    (setUser u s).messages = s.messages ∧
    (setUser u s).selectedModel = s.selectedModel ∧
    (setUser u s).isDarkMode = s.isDarkMode :=
  ⟨rfl, rfl, rfl, rfl, rfl, rfl, rfl⟩

/-- Claim C6 fails on the code as stated: the store's clear-user transition
(`setUser null`) is not a single transition producing the fully cleared
state — at `sampleState` it leaves the conversation list, the current
conversation and the message list untouched, so it differs from the cleared
state the claim demands. -/
theorem C6_counterexample :
    setUser none sampleState ≠ specLogoutCleared sampleState := by decide

/-- Claim C6 (amended): logout is performed by the `SIGNED_OUT` handler as
five successive independent store transitions (`setUser null`,
`setIsAuthenticated false`, `setCurrentConversation null`, `setMessages
[]`, `setConversations []`); their composition produces exactly the fully
cleared state, while the clear-user transition alone clears only the user
and the authentication flag, leaving the conversation list, the message
list and the current conversation unchanged. -/
theorem C6_logout_composite (s : ChatState) :
    signedOutHandler s = specLogoutCleared s ∧
    (setUser none s).conversations = s.conversations ∧
    (setUser none s).messages = s.messages ∧
    (setUser none s).currentConversation = s.currentConversation :=
  ⟨rfl, rfl, rfl, rfl⟩

/-- Claim C7: `addMessage` appends the message to the message list and, in
the same atomic transition, sets `last_message` of every conversation whose
id equals the message's `conversation_id` to the message's content;
conversations with other ids survive unchanged, and the user and current
conversation are untouched. -/
theorem C7_addMessage_cache (s : ChatState) (m : Message) :
    (addMessage m s).messages = s.messages ++ [m] ∧
    (∀ c ∈ (addMessage m s).conversations,
      c.id = m.conversation_id → c.last_message = some m.content) ∧
    (∀ c ∈ s.conversations, c.id ≠ m.conversation_id →
      c ∈ (addMessage m s).conversations) ∧
    (addMessage m s).user = s.user ∧
    (addMessage m s).currentConversation = s.currentConversation := by
  refine ⟨rfl, ?_, ?_, rfl, rfl⟩
  · intro c hc hid
    simp only [addMessage, List.mem_map] at hc
    obtain ⟨c0, hc0, rfl⟩ := hc
    by_cases h : c0.id = m.conversation_id
    · simp [h]
    · rw [if_neg h] at hid
      exact absurd hid h
  · intro c hc hne
    simp only [addMessage, List.mem_map]
    exact ⟨c, hc, by simp [hne]⟩

/-- Closed instantiation of the C7 theorem at `sampleState`/`sampleMsg`. -/
theorem C7_witness :
    (addMessage sampleMsg sampleState).messages = sampleState.messages ++ [sampleMsg] ∧
    (∀ c ∈ (addMessage sampleMsg sampleState).conversations,
      c.id = sampleMsg.conversation_id → c.last_message = some sampleMsg.content) ∧
    (∀ c ∈ sampleState.conversations, c.id ≠ sampleMsg.conversation_id →
      c ∈ (addMessage sampleMsg sampleState).conversations) ∧
    (addMessage sampleMsg sampleState).user = sampleState.user ∧
    (addMessage sampleMsg sampleState).currentConversation = sampleState.currentConversation :=
  C7_addMessage_cache sampleState sampleMsg

/-! ## Theorems: provider dispatch and single-shot generation -/

/-- Claim C9: for every model identifier other than "gemini" and
"deepseek-chat" — including identifiers outside the enumerated model set —
both `generateAIResponse` and `streamAIResponse` dispatch to the OpenAI
(gpt-3.5-turbo) path; dispatch is total and never fails on an unknown
identifier. -/
theorem C9_default_dispatch (model : String) (genv : GenerateEnv) (senv : StreamEnv)
    (h1 : model ≠ "gemini") (h2 : model ≠ "deepseek-chat") :
    generateAIResponse model genv = generateOpenAIResponse genv.openai ∧
    streamAIResponse model senv = streamOpenAIResponse senv.openai := by
  constructor
  · simp [generateAIResponse, h1, h2]
  · simp [streamAIResponse, h1, h2]

/-- Closed instantiation of the C9 theorem at the identifier "llama-3". -/
theorem C9_witness :
    ("llama-3" : String) ≠ "gemini" ∧ ("llama-3" : String) ≠ "deepseek-chat" ∧
    (generateAIResponse "llama-3" failingGenerateEnv =
        generateOpenAIResponse failingGenerateEnv.openai ∧
      streamAIResponse "llama-3" failingStreamEnv =
        streamOpenAIResponse failingStreamEnv.openai) :=
  ⟨by decide, by decide,
   C9_default_dispatch "llama-3" failingGenerateEnv failingStreamEnv
     (by decide) (by decide)⟩

/-- Claim C3: single-shot generation never propagates an upstream failure:
for every model and upstream outcome, on failure it returns the fallback
string with the underlying message in the separate `error` field, and on
success it returns the completion content with no error. -/
theorem C3_generate_fail_soft (model : String) (env : GenerateEnv) :
    (generateFails model env = true →
      ∃ msg, generateAIResponse model env =
        { content := fallbackContent, error := some msg }) ∧
    (generateFails model env = false →
      generateAIResponse model env =
        { content := generateSuccessContent model env, error := none }) := by
  by_cases h1 : model = "gemini"
  · cases hg : env.gemini with
    | success t =>
      simp [generateAIResponse, generateFails, generateSuccessContent,
        generateGeminiResponse, h1, hg]
    | failure msg =>
      refine ⟨fun _ => ⟨msg, ?_⟩, fun hc => ?_⟩
      · simp [generateAIResponse, generateGeminiResponse, h1, hg]
      · simp [generateFails, h1, hg] at hc
  · by_cases h2 : model = "deepseek-chat"
    · cases hg : env.deepseek with
      | success c =>
        simp [generateAIResponse, generateFails, generateSuccessContent,
          generateDeepseekResponse, h1, h2, hg]
      | fetchFailure msg =>
        refine ⟨fun _ => ⟨msg, ?_⟩, fun hc => ?_⟩
        · simp [generateAIResponse, generateDeepseekResponse, h1, h2, hg]
        · simp [generateFails, h1, h2, hg] at hc
      | httpFailure st =>
        refine ⟨fun _ => ⟨"Deepseek API error: " ++ st, ?_⟩, fun hc => ?_⟩
        · simp [generateAIResponse, generateDeepseekResponse, h1, h2, hg]
        · simp [generateFails, h1, h2, hg] at hc
      | badPayload msg =>
        refine ⟨fun _ => ⟨msg, ?_⟩, fun hc => ?_⟩
        · simp [generateAIResponse, generateDeepseekResponse, h1, h2, hg]
        · simp [generateFails, h1, h2, hg] at hc
    · cases hg : env.openai with
      | success c =>
        simp [generateAIResponse, generateFails, generateSuccessContent,
          generateOpenAIResponse, h1, h2, hg]
      | failure msg =>
        refine ⟨fun _ => ⟨msg, ?_⟩, fun hc => ?_⟩
        · simp [generateAIResponse, generateOpenAIResponse, h1, h2, hg]
        · simp [generateFails, h1, h2, hg] at hc

/-- Closed instantiation of the C3 theorem at a failing OpenAI call. -/
theorem C3_witness :
    generateFails "gpt-3.5-turbo" failingGenerateEnv = true ∧
    ∃ msg, generateAIResponse "gpt-3.5-turbo" failingGenerateEnv =
      { content := fallbackContent, error := some msg } :=
  ⟨by decide, (C3_generate_fail_soft "gpt-3.5-turbo" failingGenerateEnv).1 (by decide)⟩

/-! ## Theorems: managed-store relay claims -/

/-- Claim C5: with no authenticated session, `createConversation` fails
with the auth-required rejection and stores nothing; with a session it
inserts a conversation owned by the current user and returns the stored row
carrying the server-assigned identifier and timestamp. -/
theorem C5_createConversation_auth (srv : Server) (title model : String) :
    (srv.sessionUser = none →
      createConversation srv title model = (.error .authRequired, srv)) ∧
    (∀ uid, srv.sessionUser = some uid →
      createConversation srv title model =
        (.ok (freshConversation srv title model uid),
         { srv with
           conversations := srv.conversations ++ [freshConversation srv title model uid],
           nextId := srv.nextId + 1 }) ∧
      (freshConversation srv title model uid).user_id = uid ∧
      (freshConversation srv title model uid).id = toString srv.nextId ∧
      (freshConversation srv title model uid).created_at = srv.now) := by
  constructor
  · intro h
    simp [createConversation, insertConversationRow, h]
  · intro uid h
    refine ⟨?_, rfl, rfl, rfl⟩
    simp [createConversation, insertConversationRow, h]

/-- Closed instantiation of the C5 theorem at a store with no session. -/
theorem C5_witness :
    noSessionServer.sessionUser = none ∧
    createConversation noSessionServer "New Chat" "gpt-3.5-turbo" =
      (.error .authRequired, noSessionServer) :=
  ⟨rfl, (C5_createConversation_auth noSessionServer "New Chat" "gpt-3.5-turbo").1 rfl⟩

/-- Claim C4: `sendMessage` issues the message insert and the conversation
last-message update together and awaits both: if both succeed it returns
the inserted row with its server-assigned fields; if either fails that
error is surfaced (the insert's first when both fail); and neither effect
is rolled back — the stored messages depend only on the insert's outcome
and the stored conversations only on the update's outcome. -/
theorem C4_sendMessage_paired (srv : Server) (cid content : String) (role : Role)
    (fileUrl : Option String) (faults : SendFaults) :
    (faults.insertFail = none → faults.updateFail = none →
      (sendMessage srv cid content role fileUrl faults).1 =
        .ok (freshMessage srv cid content role fileUrl)) ∧
    (∀ e, faults.insertFail = some e →
      (sendMessage srv cid content role fileUrl faults).1 = .error e) ∧
    (∀ e, faults.insertFail = none → faults.updateFail = some e →
      (sendMessage srv cid content role fileUrl faults).1 = .error e) ∧
    ((sendMessage srv cid content role fileUrl faults).2.messages =
      match faults.insertFail with
      | none => srv.messages ++ [freshMessage srv cid content role fileUrl]
      | some _ => srv.messages) ∧
    ((sendMessage srv cid content role fileUrl faults).2.conversations =
      match faults.updateFail with
      | none => srv.conversations.map (fun c =>
          if c.id = cid then { c with last_message := some content } else c)
      | some _ => srv.conversations) := by
  refine ⟨?_, ?_, ?_, ?_, ?_⟩
  · intro hi hu
    simp [sendMessage, hi, hu]
  · intro e hi
    simp [sendMessage, hi]
  · intro e hi hu
    simp [sendMessage, hi, hu]
  · cases hi : faults.insertFail with
    | none =>
      cases hu : faults.updateFail with
      | none => simp [sendMessage, hi, hu]
      | some e => simp [sendMessage, hi, hu]
    | some e =>
      cases hu : faults.updateFail with
      | none => simp [sendMessage, hi, hu]
      | some e2 => simp [sendMessage, hi, hu]
  · cases hi : faults.insertFail with
    | none =>
      cases hu : faults.updateFail with
      | none => simp [sendMessage, hi, hu]
      | some e => simp [sendMessage, hi, hu]
    | some e =>
      cases hu : faults.updateFail with
      | none => simp [sendMessage, hi, hu]
      | some e2 => simp [sendMessage, hi, hu]

/-- Closed instantiation of the C4 theorem: the update fails, its error is
surfaced, yet the inserted message row persists (no rollback). -/
theorem C4_witness :
    (sendMessage sampleServer "c1" "Hello" Role.user none sampleFaults).1 =
      .error (StoreError.other "timeout") ∧
    (sendMessage sampleServer "c1" "Hello" Role.user none sampleFaults).2.messages =
      sampleServer.messages ++ [freshMessage sampleServer "c1" "Hello" Role.user none] := by
  constructor
  · exact (C4_sendMessage_paired sampleServer "c1" "Hello" Role.user none sampleFaults).2.2.1
      (StoreError.other "timeout") rfl rfl
  · have h := (C4_sendMessage_paired sampleServer "c1" "Hello" Role.user none sampleFaults).2.2.2.1
    simpa using h

/-! ## Theorems: authentication coalescing -/

/-- Claim C8: while one authentication request is in flight, a burst of
sign-in/sign-up call prologues issues no further upstream request and
leaves the module state unchanged; every call passing validation receives
the outstanding request's promise (hence its eventual resolution), and the
only other outcome is the synchronous validation throw. -/
theorem C8_auth_coalescing (s : AuthSysState) (r : Nat) (cs : List AuthCall)
    (h : s.authRequest = some r) :
    runCalls s cs =
      (s, cs.map (fun c =>
        match callValidation c with
        | some msg => CallResult.threw msg
        | none => CallResult.promise r)) := by
  induction cs with
  | nil => simp [runCalls]
  | cons c cs ih =>
    have hd : doAuthCall s c =
        (s, match callValidation c with
            | some msg => CallResult.threw msg
            | none => CallResult.promise r) := by
      cases hv : callValidation c with
      | some msg => simp [doAuthCall, hv]
      | none => simp [doAuthCall, hv, h]
    simp [runCalls, hd, ih]

/-- Closed instantiation of the C8 theorem: during request 0 two valid
calls both receive promise 0 and an invalid call throws; no new upstream
request is issued. -/
theorem C8_witness :
    sampleAuthState.authRequest = some 0 ∧
    runCalls sampleAuthState sampleCalls =
      (sampleAuthState,
       [CallResult.promise 0, CallResult.promise 0, CallResult.threw requiredMsg]) := by
  refine ⟨rfl, ?_⟩
  rw [C8_auth_coalescing sampleAuthState 0 sampleCalls rfl]
  decide

/-! ## Streaming lemmas -/

/-- `concatAll` distributes over list append. -/
theorem concatAll_append (a b : List String) :
    concatAll (a ++ b) = concatAll a ++ concatAll b := by
  induction a with
  | nil => simp [concatAll, String.empty_append]
  | cons x xs ih => simp [concatAll, ih, String.append_assoc]

/-- Every snapshot yielded inside the line loop is an ordinary
(`done=false`, no-error) snapshot. -/
theorem processLines_benign (extract : String → Except String String)
    (lines : List String) :
    ∀ acc, ∀ s ∈ (processLines extract acc lines).2.1,
      s.done = false ∧ s.error = none := by
  induction lines with
  | nil =>
    intro acc s hs
    simp [processLines] at hs
  | cons line rest ih =>
    intro acc s hs
    cases hd : lineIsData line with
    | false =>
      rw [processLines, hd] at hs
      simp only [Bool.false_eq_true, if_false] at hs
      exact ih acc s hs
    | true =>
      cases hex : extract (sliceFrom line 6) with
      | error msg =>
        simp [processLines, hd, hex] at hs
      | ok delta =>
        rcases hpl : processLines extract (acc ++ delta) rest with ⟨accFin, ys, err⟩
        simp only [processLines, hd, if_true, hex, hpl, List.mem_cons] at hs
        rcases hs with hs | hs
        · subst hs
          exact ⟨rfl, rfl⟩
        · have hrest := ih (acc ++ delta) s
          rw [hpl] at hrest
          exact hrest hs

/-- Every snapshot yielded inside the chunk loop is an ordinary snapshot. -/
theorem processChunks_benign (extract : String → Except String String)
    (chunks : List String) :
    ∀ acc, ∀ s ∈ (processChunks extract acc chunks).2.1,
      s.done = false ∧ s.error = none := by
  induction chunks with
  | nil =>
    intro acc s hs
    simp [processChunks] at hs
  | cons chunk rest ih =>
    intro acc s hs
    rcases hpl : processLines extract acc (chunkLines chunk) with ⟨acc2, ys, err⟩
    have hys := processLines_benign extract (chunkLines chunk) acc
    rw [hpl] at hys
    cases err with
    | some msg =>
      simp only [processChunks, hpl] at hs
      exact hys s hs
    | none =>
      rcases hpc : processChunks extract acc2 rest with ⟨acc3, ys2, err2⟩
      simp only [processChunks, hpl, hpc, List.mem_append] at hs
      rcases hs with hs | hs
      · exact hys s hs
      · have hrest := ih acc2 s
        rw [hpc] at hrest
        exact hrest hs

/-- Every snapshot yielded inside the OpenAI chunk loop is ordinary. -/
theorem openaiYields_benign (chunks : List (Option String)) :
    ∀ acc, ∀ s ∈ (openaiYields acc chunks).2,
      s.done = false ∧ s.error = none := by
  induction chunks with
  | nil =>
    intro acc s hs
    simp [openaiYields] at hs
  | cons c cs ih =>
    intro acc s hs
    rcases hoy : openaiYields (acc ++ c.getD "") cs with ⟨accFin, ys⟩
    simp only [openaiYields, hoy, List.mem_cons] at hs
    rcases hs with hs | hs
    · subst hs
      exact ⟨rfl, rfl⟩
    · have hrest := ih (acc ++ c.getD "") s
      rw [hoy] at hrest
      exact hrest hs

/-- When every frame payload extracts, the line loop accumulates the
deltas in order, yields one snapshot per frame, and does not throw. -/
theorem processLines_ok (extract : String → Except String String)
    (lines : List String) :
    ∀ acc, (∀ p ∈ payloadsOfLines lines, (extract p).isOk = true) →
      processLines extract acc lines =
        (acc ++ concatAll (deltasOf extract (payloadsOfLines lines)),
         accumSnapshots acc (deltasOf extract (payloadsOfLines lines)), none) := by
  induction lines with
  | nil =>
    intro acc _
    simp [processLines, payloadsOfLines, deltasOf, concatAll, accumSnapshots,
      String.append_empty]
  | cons line rest ih =>
    intro acc hok
    cases hd : lineIsData line with
    | false =>
      have hpay : payloadsOfLines (line :: rest) = payloadsOfLines rest := by
        rw [payloadsOfLines, hd]
        simp
      have hok' : ∀ p ∈ payloadsOfLines rest, (extract p).isOk = true := by
        intro p hp
        exact hok p (by rw [hpay]; exact hp)
      rw [processLines, hd]
      simp only [Bool.false_eq_true, if_false]
      rw [ih acc hok', hpay]
    | true =>
      have hpay : payloadsOfLines (line :: rest) =
          sliceFrom line 6 :: payloadsOfLines rest := by
        rw [payloadsOfLines, hd]
        simp
      have hokhd : (extract (sliceFrom line 6)).isOk = true := by
        exact hok _ (by rw [hpay]; exact List.mem_cons_self _ _)
      cases hex : extract (sliceFrom line 6) with
      | error msg =>
        rw [hex] at hokhd
        simp [Except.isOk, Except.toBool] at hokhd
      | ok delta =>
        have hok' : ∀ p ∈ payloadsOfLines rest, (extract p).isOk = true := by
          intro p hp
          exact hok p (by rw [hpay]; exact List.mem_cons_of_mem _ hp)
        have hdel : deltasOf extract (payloadsOfLines (line :: rest)) =
            delta :: deltasOf extract (payloadsOfLines rest) := by
          rw [hpay]
          simp [deltasOf, List.filterMap_cons, hex, Except.toOption]
        simp only [processLines, hd, if_true, hex, ih (acc ++ delta) hok', hdel]
        simp [accumSnapshots, concatAll, String.append_assoc]

/-- `payloadsOfChunks` on a cons. -/
theorem payloadsOfChunks_cons (chunk : String) (rest : List String) :
    payloadsOfChunks (chunk :: rest) =
      payloadsOfLines (chunkLines chunk) ++ payloadsOfChunks rest := by
  simp [payloadsOfChunks]

/-- `deltasOf` distributes over append. -/
theorem deltasOf_append (extract : String → Except String String)
    (a b : List String) :
    deltasOf extract (a ++ b) = deltasOf extract a ++ deltasOf extract b := by
  simp [deltasOf]

/-- `accumSnapshots` splits along a delta-list append. -/
theorem accumSnapshots_append (ds1 ds2 : List String) :
    ∀ acc, accumSnapshots acc (ds1 ++ ds2) =
      accumSnapshots acc ds1 ++ accumSnapshots (acc ++ concatAll ds1) ds2 := by
  induction ds1 with
  | nil =>
    intro acc
    simp [accumSnapshots, concatAll, String.append_empty]
  | cons d ds ih =>
    intro acc
    simp [accumSnapshots, concatAll, ih (acc ++ d), String.append_assoc]

/-- When every frame payload extracts, the chunk loop accumulates all the
deltas in order and does not throw. -/
theorem processChunks_ok (extract : String → Except String String)
    (chunks : List String) :
    ∀ acc, (∀ p ∈ payloadsOfChunks chunks, (extract p).isOk = true) →
      processChunks extract acc chunks =
        (acc ++ concatAll (deltasOf extract (payloadsOfChunks chunks)),
         accumSnapshots acc (deltasOf extract (payloadsOfChunks chunks)), none) := by
  induction chunks with
  | nil =>
    intro acc _
    simp [processChunks, payloadsOfChunks, deltasOf, concatAll, accumSnapshots,
      String.append_empty]
  | cons chunk rest ih =>
    intro acc hok
    have hokL : ∀ p ∈ payloadsOfLines (chunkLines chunk), (extract p).isOk = true := by
      intro p hp
      exact hok p (by rw [payloadsOfChunks_cons]; exact List.mem_append_left _ hp)
    have hokR : ∀ p ∈ payloadsOfChunks rest, (extract p).isOk = true := by
      intro p hp
      exact hok p (by rw [payloadsOfChunks_cons]; exact List.mem_append_right _ hp)
    have hL := processLines_ok extract (chunkLines chunk) acc hokL
    have hR := ih (acc ++ concatAll (deltasOf extract (payloadsOfLines (chunkLines chunk)))) hokR
    simp only [processChunks, hL, hR, payloadsOfChunks_cons, deltasOf_append,
      concatAll_append, accumSnapshots_append]
    simp [String.append_assoc]

/-- The snapshots of a well-formed frame run, followed by any tail whose
content is the full accumulation, have monotonically extending contents. -/
theorem accumSnapshots_chain (ds : List String) :
    ∀ acc (tail : AIStreamResponse), tail.content = acc ++ concatAll ds →
      List.Chain' (fun a b => ∃ t, b.content = a.content ++ t)
        (accumSnapshots acc ds ++ [tail]) := by
  induction ds with
  | nil =>
    intro acc tail _
    simp [accumSnapshots]
  | cons d ds ih =>
    intro acc tail htail
    have htail' : tail.content = (acc ++ d) ++ concatAll ds := by
      rw [htail, concatAll, String.append_assoc]
    have hchain := ih (acc ++ d) tail htail'
    rw [accumSnapshots, List.cons_append]
    refine List.Chain'.cons' hchain ?_
    intro y hy
    cases ds with
    | nil =>
      simp [accumSnapshots] at hy
      subst hy
      exact ⟨concatAll [], htail'⟩
    | cons d2 ds2 =>
      simp [accumSnapshots] at hy
      subst hy
      exact ⟨d2, rfl⟩

/-! ## Theorems: streaming claims -/

/-- Claim C1: for the event-frame (Deepseek) streaming provider, whenever
the upstream responds successfully and every `data: ` frame payload parses,
the adapter yields exactly one ordinary snapshot per parsed frame whose
content is the accumulated text so far, each snapshot's content extends the
previous one, and when the upstream closes it yields a final `done=true`
snapshot whose content is the concatenation of all deltas in order. -/
theorem C1_eventframe_accumulation (extract : String → Except String String)
    (u : DeepseekStream) (h1 : u.fetchFail = none) (h2 : u.ok = true)
    (h3 : u.readable = true) (h4 : u.readError = none)
    (h5 : ∀ p ∈ payloadsOfChunks u.chunks, (extract p).isOk = true) :
    streamDeepseekResponse extract u =
      accumSnapshots "" (deltasOf extract (payloadsOfChunks u.chunks)) ++
        [{ content := concatAll (deltasOf extract (payloadsOfChunks u.chunks)),
           done := true, error := none }] ∧
    List.Chain' (fun a b => ∃ t, b.content = a.content ++ t)
      (streamDeepseekResponse extract u) := by
  have hpc := processChunks_ok extract u.chunks "" h5
  have heq : streamDeepseekResponse extract u =
      accumSnapshots "" (deltasOf extract (payloadsOfChunks u.chunks)) ++
        [{ content := concatAll (deltasOf extract (payloadsOfChunks u.chunks)),
           done := true, error := none }] := by
    rw [streamDeepseekResponse, h1]
    simp [h2, h3, h4, hpc, String.empty_append]
  refine ⟨heq, ?_⟩
  rw [heq]
  exact accumSnapshots_chain _ "" _ (by rw [String.empty_append])

/-- Closed instantiation of the C1 theorem: frames with deltas "Hi" and
" there" produce snapshots "Hi", "Hi there" and a final done snapshot
"Hi there" (the scenario in the specification). -/
theorem C1_witness :
    sampleDeepseekStream.fetchFail = none ∧
    streamDeepseekResponse idExtract sampleDeepseekStream =
      [{ content := "Hi", done := false, error := none },
       { content := "Hi there", done := false, error := none },
       { content := "Hi there", done := true, error := none }] ∧
    List.Chain' (fun a b => ∃ t, b.content = a.content ++ t)
      (streamDeepseekResponse idExtract sampleDeepseekStream) := by
  have h := C1_eventframe_accumulation idExtract sampleDeepseekStream rfl rfl rfl rfl
    (by decide)
  refine ⟨rfl, ?_, h.2⟩
  rw [h.1]
  decide

/-- Claim C2: for every provider and input, if any failure occurs during
streaming, the yielded sequence is a (possibly empty) run of ordinary
snapshots followed by exactly one terminal error snapshot carrying the
non-empty fallback text, `done=true` and the error message; and
unconditionally the sequence never ends without a terminal `done=true`
snapshot. -/
theorem C2_stream_failure_terminal (model : String) (env : StreamEnv) :
    (streamOutcomeFails model env = true →
      ∃ pre msg, streamAIResponse model env =
          pre ++ [{ content := fallbackContent, done := true, error := some msg }] ∧
        ∀ s ∈ pre, s.done = false ∧ s.error = none) ∧
    fallbackContent ≠ "" ∧
    (∃ pre last, streamAIResponse model env = pre ++ [last] ∧ last.done = true) := by
  by_cases hm1 : model = "gemini"
  · cases hg : env.gemini with
    | success t =>
      refine ⟨fun hf => ?_, by decide, ?_⟩
      · simp [streamOutcomeFails, hm1, hg] at hf
      · exact ⟨[], { content := t, done := true, error := none },
          by simp [streamAIResponse, streamGeminiResponse, generateGeminiResponse, hm1, hg], rfl⟩
    | failure msg =>
      refine ⟨fun _ => ⟨[], msg, ?_, by simp⟩, by decide, ?_⟩
      · simp [streamAIResponse, streamGeminiResponse, generateGeminiResponse, hm1, hg]
      · exact ⟨[], { content := fallbackContent, done := true, error := some msg },
          by simp [streamAIResponse, streamGeminiResponse, generateGeminiResponse, hm1, hg], rfl⟩
  · by_cases hm2 : model = "deepseek-chat"
    · have hdisp : streamAIResponse model env =
          streamDeepseekResponse env.deepseekExtract env.deepseek := by
        simp [streamAIResponse, hm1, hm2]
      cases hff : env.deepseek.fetchFail with
      | some msg =>
        have hstream : streamAIResponse model env = [errorSnapshot msg] := by
          rw [hdisp, streamDeepseekResponse, hff]
        refine ⟨fun _ => ⟨[], msg, by rw [hstream]; rfl, by simp⟩, by decide,
          ⟨[], errorSnapshot msg, by rw [hstream]; rfl, rfl⟩⟩
      | none =>
        cases hok : env.deepseek.ok with
        | false =>
          have hstream : streamAIResponse model env =
              [errorSnapshot ("Deepseek API error: " ++ env.deepseek.statusText)] := by
            rw [hdisp, streamDeepseekResponse, hff]
            simp [hok]
          refine ⟨fun _ => ⟨[], _, by rw [hstream]; rfl, by simp⟩, by decide,
            ⟨[], _, by rw [hstream]; rfl, rfl⟩⟩
        | true =>
          cases hrd : env.deepseek.readable with
          | false =>
            have hstream : streamAIResponse model env =
                [errorSnapshot "Response body is not readable"] := by
              rw [hdisp, streamDeepseekResponse, hff]
              simp [hok, hrd]
            refine ⟨fun _ => ⟨[], _, by rw [hstream]; rfl, by simp⟩, by decide,
              ⟨[], _, by rw [hstream]; rfl, rfl⟩⟩
          | true =>
            rcases hpc : processChunks env.deepseekExtract "" env.deepseek.chunks with
              ⟨acc, ys, err⟩
            have hys := processChunks_benign env.deepseekExtract env.deepseek.chunks ""
            rw [hpc] at hys
            cases err with
            | some msg =>
              have hstream : streamAIResponse model env = ys ++ [errorSnapshot msg] := by
                rw [hdisp, streamDeepseekResponse, hff]
                simp [hok, hrd, hpc]
              refine ⟨fun _ => ⟨ys, msg, by rw [hstream]; rfl, hys⟩, by decide,
                ⟨ys, errorSnapshot msg, by rw [hstream], rfl⟩⟩
            | none =>
              cases hre : env.deepseek.readError with
              | some msg =>
                have hstream : streamAIResponse model env = ys ++ [errorSnapshot msg] := by
                  rw [hdisp, streamDeepseekResponse, hff]
                  simp [hok, hrd, hpc, hre]
                refine ⟨fun _ => ⟨ys, msg, by rw [hstream]; rfl, hys⟩, by decide,
                  ⟨ys, errorSnapshot msg, by rw [hstream], rfl⟩⟩
              | none =>
                have hstream : streamAIResponse model env =
                    ys ++ [{ content := acc, done := true, error := none }] := by
                  rw [hdisp, streamDeepseekResponse, hff]
                  simp [hok, hrd, hpc, hre]
                refine ⟨fun hf => ?_, by decide,
                  ⟨ys, { content := acc, done := true, error := none },
                    by rw [hstream], rfl⟩⟩
                rw [streamOutcomeFails, if_neg hm1, if_pos hm2, hff, hok, hrd, hpc, hre] at hf
                simp at hf
    · have hdisp : streamAIResponse model env = streamOpenAIResponse env.openai := by
        simp [streamAIResponse, hm1, hm2]
      have hfail : streamOutcomeFails model env =
          (env.openai.createFail.isSome || env.openai.iterError.isSome) := by
        rw [streamOutcomeFails, if_neg hm1, if_neg hm2]
      cases hcf : env.openai.createFail with
      | some msg =>
        have hstream : streamAIResponse model env = [errorSnapshot msg] := by
          rw [hdisp, streamOpenAIResponse, hcf]
        refine ⟨fun _ => ⟨[], msg, by rw [hstream]; rfl, by simp⟩, by decide,
          ⟨[], errorSnapshot msg, by rw [hstream]; rfl, rfl⟩⟩
      | none =>
        rcases hoy : openaiYields "" env.openai.chunks with ⟨acc, ys⟩
        have hys := openaiYields_benign env.openai.chunks ""
        rw [hoy] at hys
        cases hie : env.openai.iterError with
        | some msg =>
          have hstream : streamAIResponse model env = ys ++ [errorSnapshot msg] := by
            rw [hdisp, streamOpenAIResponse, hcf, hoy, hie]
          refine ⟨fun _ => ⟨ys, msg, by rw [hstream]; rfl, hys⟩, by decide,
            ⟨ys, errorSnapshot msg, by rw [hstream], rfl⟩⟩
        | none =>
          have hstream : streamAIResponse model env =
              ys ++ [{ content := acc, done := true, error := none }] := by
            rw [hdisp, streamOpenAIResponse, hcf, hoy, hie]
          refine ⟨fun hf => ?_, by decide,
            ⟨ys, { content := acc, done := true, error := none },
              by rw [hstream], rfl⟩⟩
          rw [hfail, hcf, hie] at hf
          simp at hf

/-- Closed instantiation of the C2 theorem at a Deepseek stream whose
fetch rejects. -/
theorem C2_witness :
    streamOutcomeFails "deepseek-chat" failingStreamEnv = true ∧
    ∃ pre msg, streamAIResponse "deepseek-chat" failingStreamEnv =
        pre ++ [{ content := fallbackContent, done := true, error := some msg }] ∧
      ∀ s ∈ pre, s.done = false ∧ s.error = none :=
  ⟨by decide,
   (C2_stream_failure_terminal "deepseek-chat" failingStreamEnv).1 (by decide)⟩

end OmniChat
